import Mathlib

/-!
Shallow embedding of the telemetry fusion core of `src/src/bin/dashboard.rs`
(drone_tracker).  The `f32` coordinates are modelled as exact rationals,
`u32`/`u64`/`u128` integers as `Nat`, and `Instant` as a `Nat` millisecond
clock.  `VecDeque` is modelled as a `List` with its head at the deque front,
so `push_back` appends at the tail and `pop_front` drops the head.
-/

namespace DroneTracker

/-- Wire record (`struct Telemetry` in dashboard.rs): id, x, y, z, battery,
status, ts_ms, all required. -/
structure Telemetry where
  id : Nat
  x : ℚ
  y : ℚ
  z : ℚ
  battery : ℚ
  status : String
  ts_ms : Nat
deriving Repr, DecidableEq

/-- Per-entity state (`struct DroneState`): latest raw fields, smoothed
position, `last_seen` receive instant (ms), and the trail of
`(smoothed_x, smoothed_y, instant)` triples. -/
structure DroneState where
  x : ℚ
  y : ℚ
  z : ℚ
  battery : ℚ
  status : String
  last_ts_ms : Nat
  last_seen : Nat
  smoothed_x : ℚ
  smoothed_y : ℚ
  trail : List (ℚ × ℚ × Nat)
deriving Repr, DecidableEq

/-- Shared store (`struct AppState`): the id → DroneState map (modelled as an
association list, one entry per id), plus the two global counters. -/
structure AppState where
  drones : List (Nat × DroneState)
  total_packets : Nat
  last_packet_at : Option Nat
deriving Repr, DecidableEq

/-- `AppState::default()`. -/
def emptyState : AppState := { drones := [], total_packets := 0, last_packet_at := none }

/-- The fixed smoothing factor (`let alpha = 0.25_f32`). -/
def alpha : ℚ := 1/4

/-- `const TRAIL_MAX_POINTS: usize = 600`. -/
def TRAIL_MAX_POINTS : Nat := 600

/-- `const TRAIL_MAX_AGE: Duration = Duration::from_secs(20)`, in ms. -/
def TRAIL_MAX_AGE : Nat := 20000

/-- One EMA smoothing step for one axis:
`smoothed = smoothed + alpha * (raw - smoothed)`. -/
def emaStep (raw s : ℚ) : ℚ := s + alpha * (raw - s)

/-- Iterated EMA smoothing with a constant raw value `raw`, starting from
`s`: the smoothed value after `n` updates. -/
def emaIter (raw s : ℚ) : Nat → ℚ
  | 0 => s
  | n + 1 => emaStep raw (emaIter raw s n)

/-- `HashMap::get`-style lookup on the association list. -/
def lookupDrone : List (Nat × DroneState) → Nat → Option DroneState
  | [], _ => none
  | (k, v) :: rest, id => if k = id then some v else lookupDrone rest id

/-- Store the (possibly new) state for `id`, replacing an existing entry in
place or inserting a new one (`HashMap::entry(..).or_insert(..)` plus the
subsequent in-place mutation). -/
def setDrone : List (Nat × DroneState) → Nat → DroneState → List (Nat × DroneState)
  | [], id, d => [(id, d)]
  | (k, v) :: rest, id, d => if k = id then (id, d) :: rest else (k, v) :: setDrone rest id d

/-- The `or_insert` initial state for a fresh id: raw fields from the record,
smoothed position initialised to the raw position, empty trail. -/
def initDrone (t : Telemetry) (now : Nat) : DroneState :=
  { x := t.x, y := t.y, z := t.z, battery := t.battery, status := t.status,
    last_ts_ms := t.ts_ms, last_seen := now,
    smoothed_x := t.x, smoothed_y := t.y, trail := [] }

/-- `while entry.trail.len() > TRAIL_MAX_POINTS { entry.trail.pop_front(); }`,
with explicit fuel (each iteration pops exactly one element, so fuel equal to
the initial length always suffices). -/
def pruneLenFuel : Nat → List (ℚ × ℚ × Nat) → List (ℚ × ℚ × Nat)
  | 0, l => l
  | n + 1, l => if TRAIL_MAX_POINTS < l.length then pruneLenFuel n l.tail else l

/-- The count-based trail prune loop. -/
def pruneLen (l : List (ℚ × ℚ × Nat)) : List (ℚ × ℚ × Nat) := pruneLenFuel l.length l

/-- `while let Some(&(_, _, when)) = entry.trail.front() { if when.elapsed() >
TRAIL_MAX_AGE { pop_front } else { break } }`, with explicit fuel.
`when.elapsed()` is `now - when` (truncated, `Instant` never runs backwards). -/
def pruneAgeFuel (now : Nat) : Nat → List (ℚ × ℚ × Nat) → List (ℚ × ℚ × Nat)
  | 0, l => l
  | _ + 1, [] => []
  | n + 1, p :: rest =>
      if TRAIL_MAX_AGE < now - p.2.2 then pruneAgeFuel now n rest else p :: rest

/-- The age-based trail prune loop. -/
def pruneAge (now : Nat) (l : List (ℚ × ℚ × Nat)) : List (ℚ × ℚ × Nat) :=
  pruneAgeFuel now l.length l

/-- The per-entity body of the update: overwrite the raw fields, set
`last_seen`, recompute the smoothed position by EMA, append the smoothed
point to the trail, then prune by count and by age. -/
def applyTelemetry (d : DroneState) (t : Telemetry) (now : Nat) : DroneState :=
  let sx := emaStep t.x d.smoothed_x
  let sy := emaStep t.y d.smoothed_y
  let trail := pruneAge now (pruneLen (d.trail ++ [(sx, sy, now)]))
  { x := t.x, y := t.y, z := t.z, battery := t.battery, status := t.status,
    last_ts_ms := t.ts_ms, last_seen := now,
    smoothed_x := sx, smoothed_y := sy, trail := trail }

/-- `guard.drones.entry(t.id).or_insert(DroneState { .. })`: the existing
state for the id, or the freshly initialised one. -/
def entryOrInsert (st : AppState) (t : Telemetry) (now : Nat) : DroneState :=
  match lookupDrone st.drones t.id with
  | some d => d
  | none => initDrone t now

/-- The whole `update` applied to the store under the single lock acquisition:
look up or create the entity, apply the per-entity update, bump the global
packet counter and last-packet instant. -/
def update (st : AppState) (t : Telemetry) (now : Nat) : AppState :=
  { drones := setDrone st.drones t.id (applyTelemetry (entryOrInsert st t now) t now),
    total_packets := st.total_packets + 1,
    last_packet_at := some now }

/-- One iteration of the receive loop on a successfully received datagram:
the decode / parse guards (`from_utf8` then `serde_json::from_str`, modelled
together as a decoder `dec` returning `none` on any failure) are applied and
on failure the datagram is silently discarded. -/
def processDatagram (dec : List Nat → Option Telemetry) (st : AppState)
    (dgram : List Nat) (now : Nat) : AppState :=
  match dec dgram with
  | none => st
  | some t => update st t now

/-- The receive step including the fixed 2048-byte buffer: `recv_from` on a
UDP socket truncates the datagram to the buffer size, so only the first 2048
bytes reach the decoder. -/
def recvProcess (dec : List Nat → Option Telemetry) (st : AppState)
    (dgram : List Nat) (now : Nat) : AppState :=
  processDatagram dec st (dgram.take 2048) now

/-- The receive loop folded over a delivery sequence of timed datagrams,
starting from a given state. -/
def processAll (dec : List Nat → Option Telemetry) (st : AppState)
    (dgrams : List (List Nat × Nat)) : AppState :=
  dgrams.foldl (fun s p => recvProcess dec s p.1 p.2) st

/-- Listener startup (`UdpSocket::bind(&bind).expect("failed to bind UDP
socket")` then `socket.set_nonblocking(true).expect("failed to set
non-blocking")`): either `expect` aborts the listener, carrying its message,
before the receive loop starts. -/
def listenerStartup (bindRes nbRes : Except String Unit) : Except String Unit :=
  match bindRes with
  | Except.error e => Except.error ("failed to bind UDP socket: " ++ e)
  | Except.ok _ =>
      match nbRes with
      | Except.error e => Except.error ("failed to set non-blocking: " ++ e)
      | Except.ok _ => Except.ok ()

/-- The listener thread: startup, then the receive loop folded over the
sequence of delivered datagrams (each tagged with its receive instant),
starting from the default store state. -/
def listenerRun (bindRes nbRes : Except String Unit)
    (dec : List Nat → Option Telemetry)
    (dgrams : List (List Nat × Nat)) : Except String AppState :=
  match listenerStartup bindRes nbRes with
  | Except.error e => Except.error e
  | Except.ok _ => Except.ok (processAll dec emptyState dgrams)

/-- Freshness of the map dot (`App::update`, dot_alpha): the drone fades
(alpha 80, "stale") iff `last_seen.elapsed() > Duration::from_secs(2)`,
else it is drawn solid (alpha 220, "fresh").  Age in ms. -/
def dotAlpha (ageMs : Nat) : Nat := if 2000 < ageMs then 80 else 220

/-- Freshness of the HUD ring (`App::update`, last-packet ring): the ring is
coloured stale iff `secs > 2.0` where `secs = age.as_secs_f32()`. -/
def hudStale (ageSecs : ℚ) : Bool := 2 < ageSecs

/-! ### Trail prune loop lemmas -/

lemma pruneLenFuel_of_le (n : Nat) (l : List (ℚ × ℚ × Nat))
    (h : l.length ≤ TRAIL_MAX_POINTS) : pruneLenFuel n l = l := by
  cases n with
  | zero => rfl
  | succ n =>
      show (if TRAIL_MAX_POINTS < l.length then pruneLenFuel n l.tail else l) = l
      rw [if_neg (Nat.not_lt.mpr h)]

lemma pruneLenFuel_length (n : Nat) (l : List (ℚ × ℚ × Nat))
    (h : l.length ≤ n + TRAIL_MAX_POINTS) :
    (pruneLenFuel n l).length ≤ TRAIL_MAX_POINTS := by
  induction n generalizing l with
  | zero => simpa using h
  | succ n ih =>
      show (if TRAIL_MAX_POINTS < l.length then pruneLenFuel n l.tail else l).length ≤
        TRAIL_MAX_POINTS
      by_cases hc : TRAIL_MAX_POINTS < l.length
      · rw [if_pos hc]
        exact ih l.tail (by rw [List.length_tail]; omega)
      · rw [if_neg hc]
        omega

lemma pruneLen_length (l : List (ℚ × ℚ × Nat)) :
    (pruneLen l).length ≤ TRAIL_MAX_POINTS :=
  pruneLenFuel_length l.length l (by omega)

lemma pruneLen_of_le (l : List (ℚ × ℚ × Nat)) (h : l.length ≤ TRAIL_MAX_POINTS) :
    pruneLen l = l :=
  pruneLenFuel_of_le l.length l h

lemma pruneLen_of_eq (l : List (ℚ × ℚ × Nat))
    (h : l.length = TRAIL_MAX_POINTS + 1) : pruneLen l = l.tail := by
  have ht : l.tail.length ≤ TRAIL_MAX_POINTS := by rw [List.length_tail]; omega
  show pruneLenFuel l.length l = l.tail
  rw [h]
  show (if TRAIL_MAX_POINTS < l.length then pruneLenFuel TRAIL_MAX_POINTS l.tail else l) = l.tail
  rw [if_pos (by omega), pruneLenFuel_of_le _ _ ht]

lemma pruneAgeFuel_length (now n : Nat) (l : List (ℚ × ℚ × Nat)) :
    (pruneAgeFuel now n l).length ≤ l.length := by
  induction n generalizing l with
  | zero => exact Nat.le_refl _
  | succ n ih =>
      cases l with
      | nil => exact Nat.le_refl _
      | cons q rest =>
          show (if TRAIL_MAX_AGE < now - q.2.2 then pruneAgeFuel now n rest
            else q :: rest).length ≤ (q :: rest).length
          by_cases hc : TRAIL_MAX_AGE < now - q.2.2
          · rw [if_pos hc]
            calc (pruneAgeFuel now n rest).length ≤ rest.length := ih rest
              _ ≤ (q :: rest).length := by simp
          · rw [if_neg hc]

lemma pruneAgeFuel_head (now n : Nat) (l : List (ℚ × ℚ × Nat)) (h : l.length ≤ n) :
    ∀ p, (pruneAgeFuel now n l).head? = some p → now - p.2.2 ≤ TRAIL_MAX_AGE := by
  induction n generalizing l with
  | zero =>
      intro p hp
      rw [List.length_eq_zero.mp (Nat.le_zero.mp h)] at hp
      simp [pruneAgeFuel] at hp
  | succ n ih =>
      intro p hp
      cases l with
      | nil => simp [pruneAgeFuel] at hp
      | cons q rest =>
          by_cases hc : TRAIL_MAX_AGE < now - q.2.2
          · have he : pruneAgeFuel now (n + 1) (q :: rest) = pruneAgeFuel now n rest := by
              show (if TRAIL_MAX_AGE < now - q.2.2 then pruneAgeFuel now n rest
                else q :: rest) = pruneAgeFuel now n rest
              rw [if_pos hc]
            rw [he] at hp
            refine ih rest ?_ p hp
            simp only [List.length_cons] at h
            omega
          · have he : pruneAgeFuel now (n + 1) (q :: rest) = q :: rest := by
              show (if TRAIL_MAX_AGE < now - q.2.2 then pruneAgeFuel now n rest
                else q :: rest) = q :: rest
              rw [if_neg hc]
            rw [he] at hp
            simp only [List.head?_cons, Option.some.injEq] at hp
            rw [← hp]
            exact Nat.not_lt.mp hc

lemma pruneAge_of_head (now : Nat) (l : List (ℚ × ℚ × Nat))
    (h : ∀ p, l.head? = some p → now - p.2.2 ≤ TRAIL_MAX_AGE) : pruneAge now l = l := by
  cases l with
  | nil => rfl
  | cons q rest =>
      show (if TRAIL_MAX_AGE < now - q.2.2 then pruneAgeFuel now rest.length rest
        else q :: rest) = q :: rest
      rw [if_neg (Nat.not_lt.mpr (h q rfl))]

/-! ### Store lemmas -/

lemma lookupDrone_setDrone (ds : List (Nat × DroneState)) (id : Nat) (d : DroneState) :
    lookupDrone (setDrone ds id d) id = some d := by
  induction ds with
  | nil => simp [setDrone, lookupDrone]
  | cons kv rest ih =>
      obtain ⟨k, v⟩ := kv
      by_cases hk : k = id
      · subst hk
        simp [setDrone, lookupDrone]
      · simp only [setDrone, if_neg hk, lookupDrone]
        exact ih

lemma applyTelemetry_trail_length (d : DroneState) (t : Telemetry) (now : Nat) :
    (applyTelemetry d t now).trail.length ≤ TRAIL_MAX_POINTS :=
  le_trans (pruneAgeFuel_length now _ _) (pruneLen_length _)

lemma applyTelemetry_trail_head (d : DroneState) (t : Telemetry) (now : Nat) :
    ∀ p, (applyTelemetry d t now).trail.head? = some p → now - p.2.2 ≤ TRAIL_MAX_AGE :=
  fun p hp => pruneAgeFuel_head now _ _ (Nat.le_refl _) p hp

/-! ### Claim C4 -/

/-- Claim C4: immediately after every single `update` of an entity, the
entity's trail satisfies both bounds — its length is at most
`TRAIL_MAX_POINTS` (600) and the age of its oldest (front) point is at most
`TRAIL_MAX_AGE` (20 s) — enforced by the update itself, for an arbitrary
prior store state. -/
theorem C4_trail_bounds (st : AppState) (t : Telemetry) (now : Nat) (d : DroneState)
    (h : lookupDrone (update st t now).drones t.id = some d) :
    d.trail.length ≤ TRAIL_MAX_POINTS ∧
      ∀ p, d.trail.head? = some p → now - p.2.2 ≤ TRAIL_MAX_AGE := by
  have h2 : lookupDrone
      (setDrone st.drones t.id (applyTelemetry (entryOrInsert st t now) t now)) t.id =
      some d := h
  rw [lookupDrone_setDrone] at h2
  have h3 := (Option.some.injEq _ _).mp h2
  rw [← h3]
  exact ⟨applyTelemetry_trail_length _ _ _, applyTelemetry_trail_head _ _ _⟩

/-- Record used by the C4 witness. -/
def c4Rec : Telemetry :=
  { id := 7, x := 1, y := 2, z := 3, battery := 50, status := "OK", ts_ms := 42 }

/-- Claim C4 witness: the bounds instantiated after one concrete update. -/
theorem C4_trail_bounds_witness :
    (applyTelemetry (entryOrInsert emptyState c4Rec 5) c4Rec 5).trail.length ≤
        TRAIL_MAX_POINTS ∧
      ∀ p, (applyTelemetry (entryOrInsert emptyState c4Rec 5) c4Rec 5).trail.head? = some p →
        5 - p.2.2 ≤ TRAIL_MAX_AGE :=
  C4_trail_bounds emptyState c4Rec 5 _ (by rfl)

/-! ### Scenario B: 700 records for one id, one per millisecond -/

lemma pruneAge_of_all (now : Nat) (l : List (ℚ × ℚ × Nat))
    (h : ∀ p ∈ l, now - p.2.2 ≤ TRAIL_MAX_AGE) : pruneAge now l = l := by
  apply pruneAge_of_head
  intro p hp
  cases l with
  | nil => simp at hp
  | cons q rest =>
      simp only [List.head?_cons, Option.some.injEq] at hp
      exact hp ▸ h q (List.mem_cons_self q rest)

/-- The Scenario B record stream: one record for id 2 per millisecond. -/
def mkRecB (i : Nat) : Telemetry :=
  { id := 2, x := 0, y := 0, z := 0, battery := 100, status := "OK", ts_ms := i }

/-- The store after the first `n` Scenario B records, record `i` received at
instant `i` ms. -/
def scenarioB (n : Nat) : AppState :=
  (List.range n).foldl (fun st i => update st (mkRecB i) i) emptyState

/-- The trail expected after `k` Scenario B records: the smoothed points of
the most recent `min k 600` records. -/
def expectedTrailB (k : Nat) : List (ℚ × ℚ × Nat) :=
  (List.range' (k - 600) (min k 600)).map (fun i => ((0 : ℚ), (0 : ℚ), i))

/-- The entity state expected after `k` Scenario B records. -/
def expectedDroneB (k : Nat) : DroneState :=
  { x := 0, y := 0, z := 0, battery := 100, status := "OK",
    last_ts_ms := k - 1, last_seen := k - 1,
    smoothed_x := 0, smoothed_y := 0, trail := expectedTrailB k }

lemma emaStep_zero : emaStep 0 0 = 0 := by norm_num [emaStep, alpha]

lemma expectedTrailB_push_small (k : Nat) (h6 : k < 600) :
    expectedTrailB k ++ [((0 : ℚ), (0 : ℚ), k)] = expectedTrailB (k + 1) := by
  unfold expectedTrailB
  rw [Nat.sub_eq_zero_of_le (Nat.le_of_lt h6), Nat.sub_eq_zero_of_le (by omega),
    min_eq_left (Nat.le_of_lt h6), min_eq_left (by omega),
    (List.range'_concat 0 k :
      List.range' 0 (k + 1) = List.range' 0 k ++ [0 + 1 * k]),
    List.map_append]
  simp

lemma expectedTrailB_push_large (k : Nat) (h6 : 600 ≤ k) :
    (expectedTrailB k ++ [((0 : ℚ), (0 : ℚ), k)]).tail = expectedTrailB (k + 1) := by
  have hL : expectedTrailB k =
      ((0 : ℚ), (0 : ℚ), k - 600) ::
        (List.range' (k - 600 + 1) 599).map (fun i => ((0 : ℚ), (0 : ℚ), i)) := by
    unfold expectedTrailB
    rw [min_eq_right h6]
    rfl
  have hR : expectedTrailB (k + 1) =
      (List.range' (k - 600 + 1) 599).map (fun i => ((0 : ℚ), (0 : ℚ), i)) ++
        [((0 : ℚ), (0 : ℚ), k)] := by
    unfold expectedTrailB
    rw [min_eq_right (by omega), show k + 1 - 600 = k - 600 + 1 from by omega,
      (List.range'_concat (k - 600 + 1) 599 :
        List.range' (k - 600 + 1) 600 =
          List.range' (k - 600 + 1) 599 ++ [k - 600 + 1 + 1 * 599]),
      show k - 600 + 1 + 1 * 599 = k from by omega, List.map_append]
    rfl
  rw [hL, hR, List.cons_append, List.tail_cons]

lemma pruneAge_expectedTrailB (k : Nat) :
    pruneAge k (expectedTrailB (k + 1)) = expectedTrailB (k + 1) := by
  apply pruneAge_of_all
  intro p hp
  simp only [expectedTrailB, List.mem_map, List.mem_range'_1] at hp
  obtain ⟨i, ⟨hi1, _⟩, rfl⟩ := hp
  show k - i ≤ TRAIL_MAX_AGE
  have h20 : TRAIL_MAX_AGE = 20000 := rfl
  omega

lemma expectedTrailB_step (k : Nat) :
    pruneAge k (pruneLen (expectedTrailB k ++ [((0 : ℚ), (0 : ℚ), k)])) =
      expectedTrailB (k + 1) := by
  have hlen : (expectedTrailB k ++ [((0 : ℚ), (0 : ℚ), k)]).length = min k 600 + 1 := by
    simp [expectedTrailB]
  rcases Nat.lt_or_ge k 600 with h6 | h6
  · rw [pruneLen_of_le _ (by rw [hlen]; show min k 600 + 1 ≤ 600; omega),
      expectedTrailB_push_small k h6, pruneAge_expectedTrailB]
  · rw [pruneLen_of_eq _ (by rw [hlen]; show min k 600 + 1 = 600 + 1; omega),
      expectedTrailB_push_large k h6, pruneAge_expectedTrailB]

lemma applyTelemetryB (k : Nat) :
    applyTelemetry (expectedDroneB k) (mkRecB k) k = expectedDroneB (k + 1) := by
  simp only [applyTelemetry, mkRecB, expectedDroneB, emaStep_zero]
  rw [expectedTrailB_step k]
  simp

lemma update_existing (st : AppState) (t : Telemetry) (now : Nat) (d : DroneState)
    (h : lookupDrone st.drones t.id = some d) :
    update st t now =
      { drones := setDrone st.drones t.id (applyTelemetry d t now),
        total_packets := st.total_packets + 1, last_packet_at := some now } := by
  unfold update entryOrInsert
  rw [h]

lemma update_fresh (st : AppState) (t : Telemetry) (now : Nat)
    (h : lookupDrone st.drones t.id = none) :
    update st t now =
      { drones := setDrone st.drones t.id (applyTelemetry (initDrone t now) t now),
        total_packets := st.total_packets + 1, last_packet_at := some now } := by
  unfold update entryOrInsert
  rw [h]

lemma scenarioB_succ (k : Nat) : scenarioB (k + 1) = update (scenarioB k) (mkRecB k) k := by
  show (List.range (k + 1)).foldl _ emptyState = _
  rw [List.range_succ, List.foldl_append]
  rfl

lemma updateExpected (k : Nat) (lp : Option Nat) :
    update { drones := [(2, expectedDroneB k)], total_packets := k,
             last_packet_at := lp } (mkRecB k) k =
      { drones := [(2, expectedDroneB (k + 1))], total_packets := k + 1,
        last_packet_at := some k } := by
  rw [update_existing _ _ _ (expectedDroneB k) (by rfl), applyTelemetryB k]
  rfl

lemma scenarioB_state (k : Nat) :
    scenarioB (k + 1) =
      { drones := [(2, expectedDroneB (k + 1))], total_packets := k + 1,
        last_packet_at := some k } := by
  induction k with
  | zero =>
      rw [scenarioB_succ 0, show scenarioB 0 = emptyState from rfl,
        update_fresh _ _ _ (by rfl),
        show initDrone (mkRecB 0) 0 = expectedDroneB 0 from rfl, applyTelemetryB 0]
      rfl
  | succ k ih =>
      rw [scenarioB_succ (k + 1), ih, updateExpected (k + 1) (some k)]

/-! ### Claim C5 -/

/-- Claim C5: after the 700 Scenario B records for id 2 (record `i` sent at
instant `i` ms, `i = 0, …, 699`, all within `TRAIL_MAX_AGE`), the trail of
entity 2 has length exactly 600 and its oldest (front) point is
`(0, 0, 100)` — the point appended by the record received at instant 100,
i.e. the 101st record sent. -/
theorem C5_scenarioB_trail :
    (lookupDrone (scenarioB 700).drones 2).map
        (fun d => (d.trail.length, d.trail.head?)) =
      some (600, some ((0 : ℚ), (0 : ℚ), 100)) := by
  rw [show (700 : Nat) = 699 + 1 from rfl, scenarioB_state 699]
  show some ((expectedDroneB 700).trail.length, (expectedDroneB 700).trail.head?) = _
  simp [expectedDroneB, expectedTrailB, List.head?_range']

/-! ### Claim C1 -/

/-- Claim C1 counterexample: at an age of exactly the 2-second threshold the
code classifies the entity as fresh (solid dot, alpha 220, and the fresh HUD
ring colour), not stale as the claim states — both comparisons are strict. -/
theorem C1_threshold_counterexample : dotAlpha 2000 = 220 ∧ hudStale 2 = false := by
  constructor
  · rfl
  · unfold hudStale
    simp only [decide_eq_false_iff_not]
    exact lt_irrefl 2

/-- Claim C1 (corrected): staleness classification is a pure function of the
entity's age against the 2-second threshold, but the boundary goes the other
way: an age at or below the threshold classifies as fresh, and only an age
strictly above the threshold classifies as stale — for both the dot-alpha
check and the HUD ring check. -/
theorem C1_freshness_threshold (ageMs : Nat) (ageSecs : ℚ) :
    (ageMs ≤ 2000 → dotAlpha ageMs = 220) ∧ (2000 < ageMs → dotAlpha ageMs = 80) ∧
      (ageSecs ≤ 2 → hudStale ageSecs = false) ∧ (2 < ageSecs → hudStale ageSecs = true) := by
  refine ⟨fun h => ?_, fun h => ?_, fun h => ?_, fun h => ?_⟩
  · unfold dotAlpha
    rw [if_neg (Nat.not_lt.mpr h)]
  · unfold dotAlpha
    rw [if_pos h]
  · unfold hudStale
    simp only [decide_eq_false_iff_not]
    exact not_lt.mpr h
  · unfold hudStale
    simp only [decide_eq_true_eq]
    exact h

/-- Claim C1 witness: the classification evaluated 1 ms on either side of
the threshold. -/
theorem C1_freshness_threshold_witness :
    dotAlpha 1999 = 220 ∧ dotAlpha 2001 = 80 ∧
      hudStale (1999 / 1000) = false ∧ hudStale (2001 / 1000) = true :=
  ⟨(C1_freshness_threshold 1999 (1999 / 1000)).1 (by norm_num),
   (C1_freshness_threshold 2001 (2001 / 1000)).2.1 (by norm_num),
   (C1_freshness_threshold 1999 (1999 / 1000)).2.2.1 (by norm_num),
   (C1_freshness_threshold 2001 (2001 / 1000)).2.2.2 (by norm_num)⟩

/-! ### Claim C2 -/

/-- Claim C2 counterexample: with a successful bind but a failing
`set_nonblocking`, listener startup still aborts fatally — bind failure is
not the only fatal condition. -/
theorem C2_counterexample :
    listenerRun (Except.ok ()) (Except.error "denied") (fun _ => none) [] =
      Except.error "failed to set non-blocking: denied" := rfl

/-- Claim C2 (corrected): if binding fails, the listener aborts before
processing any datagram, with the bind error surfaced in the abort message;
but bind failure is not the only fatal startup condition: a failing
`set_nonblocking` aborts startup the same way. -/
theorem C2_bind_failure_fatal :
    (∀ (e : String) (nbRes : Except String Unit) (dec : List Nat → Option Telemetry)
        (dgrams : List (List Nat × Nat)),
      listenerRun (Except.error e) nbRes dec dgrams =
        Except.error ("failed to bind UDP socket: " ++ e)) ∧
      ∀ (e : String) (dec : List Nat → Option Telemetry) (dgrams : List (List Nat × Nat)),
        listenerRun (Except.ok ()) (Except.error e) dec dgrams =
          Except.error ("failed to set non-blocking: " ++ e) :=
  ⟨fun _ _ _ _ => rfl, fun _ _ _ => rfl⟩

/-! ### Claim C6 -/

/-- First Scenario A record. -/
def recA1 : Telemetry :=
  { id := 1, x := 0, y := 0, z := 10, battery := 100, status := "OK", ts_ms := 1000 }

/-- Second Scenario A record. -/
def recA2 : Telemetry :=
  { id := 1, x := 10, y := 0, z := 10, battery := 99, status := "OK", ts_ms := 1200 }

/-- Claim C6: with alpha = 0.25, processing the first Scenario A record for
a fresh id (smoothed_x initialised to the raw 0, then smoothed once against
itself) followed by the second record with x = 10 yields
smoothed_x = 0 + 0.25 * (10 − 0) = 2.5. -/
theorem C6_scenarioA_smoothed :
    (lookupDrone (update (update emptyState recA1 0) recA2 200).drones 1).map
        DroneState.smoothed_x = some (5 / 2) := by
  show some (emaStep recA2.x (emaStep recA1.x (initDrone recA1 0).smoothed_x)) = some (5 / 2)
  norm_num [emaStep, alpha, recA1, recA2, initDrone]

/-! ### Claim C7 -/

lemma emaIter_sub_eq (c s : ℚ) (n : Nat) :
    c - emaIter c s n = (3 / 4) ^ n * (c - s) := by
  induction n with
  | zero => simp [emaIter]
  | succ n ih =>
      have h : c - emaIter c s (n + 1) = (1 - alpha) * (c - emaIter c s n) := by
        show c - emaStep c (emaIter c s n) = _
        unfold emaStep
        ring
      rw [h, ih]
      unfold alpha
      rw [pow_succ]
      ring

lemma emaIter_sub_succ (c s : ℚ) (n : Nat) :
    c - emaIter c s (n + 1) = (3 / 4) * ((3 / 4) ^ n * (c - s)) := by
  rw [emaIter_sub_eq, pow_succ]
  ring

/-- Claim C7: the code's EMA (alpha fixed at 0.25) applied to each axis —
the first conjunct ties it to `applyTelemetry` — makes the smoothed value
converge monotonically toward a constant raw value `c` without ever
overshooting it: from below it is non-decreasing and never exceeds `c`,
from above non-increasing and never drops below `c`, and the distance to
`c` goes below every positive bound. -/
theorem C7_ema_monotone_convergence (s c : ℚ) :
    (∀ d t now, (applyTelemetry d t now).smoothed_x = emaStep t.x d.smoothed_x) ∧
      (∀ n, s ≤ c → emaIter c s n ≤ emaIter c s (n + 1) ∧ emaIter c s n ≤ c) ∧
      (∀ n, c ≤ s → emaIter c s (n + 1) ≤ emaIter c s n ∧ c ≤ emaIter c s n) ∧
      ∀ ε : ℚ, 0 < ε → ∃ N, ∀ n, N ≤ n → |c - emaIter c s n| < ε := by
  refine ⟨fun d t now => rfl, fun n hs => ?_, fun n hs => ?_, fun ε hε => ?_⟩
  · have h1 := emaIter_sub_eq c s n
    have h2 := emaIter_sub_succ c s n
    have key : 0 ≤ (3 / 4 : ℚ) ^ n * (c - s) :=
      mul_nonneg (by positivity) (by linarith)
    constructor <;> linarith
  · have h1 := emaIter_sub_eq c s n
    have h2 := emaIter_sub_succ c s n
    have key : (3 / 4 : ℚ) ^ n * (c - s) ≤ 0 :=
      mul_nonpos_of_nonneg_of_nonpos (by positivity) (by linarith)
    constructor <;> linarith
  · have hpos : (0 : ℚ) < |c - s| + 1 := by positivity
    obtain ⟨N, hN⟩ :=
      exists_pow_lt_of_lt_one (div_pos hε hpos) (by norm_num : (3 / 4 : ℚ) < 1)
    refine ⟨N, fun n hn => ?_⟩
    have habs : |c - emaIter c s n| = (3 / 4 : ℚ) ^ n * |c - s| := by
      rw [emaIter_sub_eq, abs_mul,
        abs_of_nonneg (by positivity : (0 : ℚ) ≤ (3 / 4 : ℚ) ^ n)]
    rw [habs]
    calc (3 / 4 : ℚ) ^ n * |c - s| ≤ (3 / 4 : ℚ) ^ N * |c - s| :=
          mul_le_mul_of_nonneg_right
            (pow_le_pow_of_le_one (by norm_num) (by norm_num) hn) (abs_nonneg _)
      _ < (ε / (|c - s| + 1)) * (|c - s| + 1) :=
          mul_lt_mul'' hN (by linarith [abs_nonneg (c - s)]) (by positivity) (abs_nonneg _)
      _ = ε := div_mul_cancel₀ ε hpos.ne'

/-- Claim C7 witness: the monotonicity instantiated at s = 0, c = 1, n = 0,
and convergence below 1/10. -/
theorem C7_ema_monotone_convergence_witness :
    (emaIter 1 0 0 ≤ emaIter 1 0 1 ∧ emaIter 1 0 0 ≤ 1) ∧
      ∃ N, ∀ n, N ≤ n → |1 - emaIter 1 0 n| < 1 / 10 :=
  ⟨(C7_ema_monotone_convergence 0 1).2.1 0 (by norm_num),
   (C7_ema_monotone_convergence 0 1).2.2.2 (1 / 10) (by norm_num)⟩

/-! ### Claim C8 -/

/-- Claim C8: a datagram rejected by the decode/parse guards (invalid UTF-8,
invalid structure, missing or mistyped required field — all modelled by the
decoder returning `none`) leaves the entire store state unchanged — no
entity created or mutated, counters untouched — and a well-formed record
followed by a non-conforming datagram leaves exactly 1 entity with
`total_packets = 1`. -/
theorem C8_malformed_noop (dec : List Nat → Option Telemetry) (st : AppState)
    (bad : List Nat) (now : Nat) (hbad : dec bad = none)
    (good bad2 : List Nat) (t : Telemetry) (now1 now2 : Nat)
    (hgood : dec good = some t) (hbad2 : dec bad2 = none) :
    processDatagram dec st bad now = st ∧
      (processDatagram dec (processDatagram dec emptyState good now1) bad2 now2).drones.length
          = 1 ∧
      (processDatagram dec (processDatagram dec emptyState good now1) bad2 now2).total_packets
          = 1 := by
  have hno : ∀ s n, processDatagram dec s bad2 n = s := fun s n => by
    unfold processDatagram
    rw [hbad2]
  refine ⟨?_, ?_, ?_⟩
  · unfold processDatagram
    rw [hbad]
  · rw [hno]
    unfold processDatagram
    rw [hgood]
    rfl
  · rw [hno]
    unfold processDatagram
    rw [hgood]
    rfl

/-- Decoder used by the C8 witness: accepts exactly the datagram `[1]`. -/
def decW : List Nat → Option Telemetry := fun d => if d = [1] then some recA1 else none

/-- Claim C8 witness: the no-op and Scenario D, on a concrete decoder. -/
theorem C8_malformed_noop_witness :
    processDatagram decW emptyState [0] 3 = emptyState ∧
      (processDatagram decW (processDatagram decW emptyState [1] 1) [2, 9] 2).drones.length
          = 1 ∧
      (processDatagram decW (processDatagram decW emptyState [1] 1) [2, 9] 2).total_packets
          = 1 :=
  C8_malformed_noop decW emptyState [0] 3 (by rfl) [1] [2, 9] recA1 1 2 (by rfl) (by rfl)

/-! ### Claim C10 -/

/-- Claim C10: the receive path reads each datagram through the fixed
2048-byte buffer, so for a datagram longer than 2048 bytes exactly its
first 2048 bytes reach the decoder; when the truncated text no longer
decodes to a valid record, the datagram is discarded and the store is
unchanged. -/
theorem C10_truncation (dec : List Nat → Option Telemetry) (st : AppState)
    (dgram : List Nat) (now : Nat) (hlong : 2048 < dgram.length) :
    (dgram.take 2048).length = 2048 ∧
      recvProcess dec st dgram now = processDatagram dec st (dgram.take 2048) now ∧
      (dec (dgram.take 2048) = none → recvProcess dec st dgram now = st) := by
  refine ⟨?_, rfl, fun h => ?_⟩
  · rw [List.length_take]
    omega
  · unfold recvProcess processDatagram
    rw [h]

/-- Claim C10 witness: a 2049-byte datagram with an all-rejecting decoder. -/
theorem C10_truncation_witness :
    ((List.replicate 2049 (0 : Nat)).take 2048).length = 2048 ∧
      recvProcess (fun _ => none) emptyState (List.replicate 2049 (0 : Nat)) 7 = emptyState := by
  have h := C10_truncation (fun _ => none) emptyState (List.replicate 2049 (0 : Nat)) 7
    (by norm_num)
  exact ⟨h.1, h.2.2 rfl⟩

end DroneTracker
